import Mathlib

/-!
A shallow embedding of the ingestion pipeline in `app.py` (class `JobScraper`):
the record normalizer, the partition fetcher `scrape_jobs_for_location`, the
batch writer `insert_jobs_to_supabase` and the orchestrator `run_scrape`.

Modelling conventions:
* Python values flowing through the pipeline are modelled by `PyVal`
  (`None`, the float `nan`, ints, strings, finite floats as the decimal
  rational they were written as, infinities, and lists).  These are the
  value shapes a `pandas.DataFrame.to_dict('records')` row can carry that
  the cleaning code dispatches on.
* Python exceptions are modelled by `PyErr`; a Python call that can raise is
  a Lean function into `Except PyErr _`; a `try/except` is a `match` on that
  result.
* `time.sleep`, the Supabase upsert and the jobspy call are modelled as
  trace events / oracles: `Event.sleep`, `Event.upsert` (whose success is
  decided by an `upsertOk` oracle), and a `provider` function standing for
  `jobspy.scrape_jobs` (which may raise, return `None`, or return a frame).
* `datetime.now().isoformat()` is an injected clock string `now`.
* Machine floats: `float(s)` is modelled as exact decimal parsing into
  `Rat` (plus `nan`/`inf` results); `int(f)` truncates toward zero.  The
  binary64 rounding of CPython is not modelled; no claim checked here
  depends on it, and `str` of a float written from a decimal literal agrees
  with the exact-decimal rendering used below.
-/

namespace App

/-- Python exceptions that the modelled code can raise or catch. -/
inductive PyErr where
  | valueError (msg : String)
  | typeError (msg : String)
  | overflowError (msg : String)
  | attributeError (msg : String)
  | providerError (msg : String)
  | upsertError (msg : String)
  deriving DecidableEq

/-- Python values appearing in a raw record or a cleaned record. -/
inductive PyVal where
  | none
  | nan
  | int (n : Int)
  | str (s : String)
  | float (q : Rat)
  | inf (neg : Bool)
  | list (xs : List PyVal)

/-- `value is None`. -/
def PyVal.isNoneV : PyVal → Bool
  | .none => true
  | _ => false

/-! ### Python string builtins, re-implemented over `List Char`
(the `String` library functions do not reduce in the kernel). -/

/-- ASCII lower-casing of one character (`str.lower` on the alphabets that
occur in float literals). -/
def lowerChar (c : Char) : Char :=
  if 'A' ≤ c ∧ c ≤ 'Z' then Char.ofNat (c.toNat + 32) else c

/-- `str.strip()`: remove leading and trailing whitespace. -/
def stripChars (cs : List Char) : List Char :=
  ((cs.dropWhile Char.isWhitespace).reverse.dropWhile Char.isWhitespace).reverse

/-- `str.strip()` on a `String`. -/
def pyStrip (s : String) : String :=
  String.mk (stripChars s.data)

/-- `str.split(',')`: split at every comma, keeping empty pieces. -/
def splitCommaChars : List Char → List (List Char)
  | [] => [[]]
  | c :: cs =>
      if c = ',' then [] :: splitCommaChars cs
      else
        match splitCommaChars cs with
        | [] => [[c]]
        | p :: ps => (c :: p) :: ps

/-- `value.split(',')` on a `String`. -/
def pySplitComma (s : String) : List String :=
  (splitCommaChars s.data).map String.mk

/-! ### `str(value)` and `repr(value)` -/

/-- Exact decimal rendering of a rational float value: integral values
render as `n.0`, finite decimals with their exact expansion (which is what
`str` prints for floats entered as those decimal literals); rationals that
are not finite decimals cannot arise from `float(...)` and get a fallback
rendering. -/
def reprRat (q : Rat) : String :=
  if q.den = 1 then toString q.num ++ ".0"
  else
    match (List.range 64).find? (fun k => 10 ^ k % q.den = 0) with
    | Option.some k =>
        let scaled : Int := q.num * ((10 ^ k : Nat) / q.den : Nat)
        let digits := toString scaled.natAbs
        let digits := if digits.length ≤ k then
            String.mk (List.replicate (k + 1 - digits.length) '0') ++ digits
          else digits
        let ip := String.mk (digits.data.take (digits.length - k))
        let fpT := ((digits.data.drop (digits.length - k)).reverse.dropWhile (· = '0')).reverse
        let fp := if fpT = [] then "0" else String.mk fpT
        (if q.num < 0 then "-" else "") ++ ip ++ "." ++ fp
    | Option.none => toString q.num ++ "/" ++ toString q.den

mutual

/-- Python `repr` for the modelled values (used for list elements). -/
def pyRepr : PyVal → String
  | .none => "None"
  | .nan => "nan"
  | .int n => toString n
  | .str s => "'" ++ s ++ "'"
  | .float q => reprRat q
  | .inf neg => if neg then "-inf" else "inf"
  | .list xs => "[" ++ pyReprList xs ++ "]"

/-- Comma-separated `repr`s of the elements of a list. -/
def pyReprList : List PyVal → String
  | [] => ""
  | [x] => pyRepr x
  | x :: y :: rest => pyRepr x ++ ", " ++ pyReprList (y :: rest)

end

/-- Python `str(value)` for the modelled values. -/
def pyStr : PyVal → String
  | .str s => s
  | v => pyRepr v

/-! ### `float(s)` and `int(f)` -/

/-- The result of a successful Python `float(...)` call. -/
inductive PyFloat where
  | finite (q : Rat)
  | nan
  | inf (neg : Bool)
  deriving DecidableEq

/-- Consume an optional sign. -/
def parseSign : List Char → Bool × List Char
  | '+' :: r => (false, r)
  | '-' :: r => (true, r)
  | r => (false, r)

/-- Numeric value of a digit run. -/
def digitsToNat (ds : List Char) : Nat :=
  ds.foldl (fun a c => a * 10 + (c.toNat - 48)) 0

/-- Split a leading digit run off a character list. -/
def spanDigits (cs : List Char) : List Char × List Char :=
  (cs.takeWhile Char.isDigit, cs.dropWhile Char.isDigit)

/-- Parse the exponent part of a float literal; the whole remainder must be
empty or a well-formed exponent. -/
def parseExp : List Char → Option Int
  | [] => Option.some 0
  | 'e' :: r =>
      let (neg, r1) := parseSign r
      let (ds, rest) := spanDigits r1
      if ds.isEmpty ∨ ¬ rest.isEmpty then Option.none
      else Option.some (if neg then -(digitsToNat ds : Int) else (digitsToNat ds : Int))
  | _ => Option.none

/-- The rational `m / 10^f * 10^e`. -/
def ratOfParts (m : Nat) (f : Nat) (e : Int) : Rat :=
  if 0 ≤ e then mkRat (m * 10 ^ e.toNat) (10 ^ f)
  else mkRat m (10 ^ f * 10 ^ (-e).toNat)

/-- Parse the numeric (non-`inf`/`nan`) body of a float literal:
`digits [. digits] [exp]` or `. digits [exp]`. -/
def parseNumber (cs : List Char) : Option Rat :=
  let (ip, r1) := spanDigits cs
  match r1 with
  | '.' :: r2 =>
      let (fp, r3) := spanDigits r2
      if ip.isEmpty ∧ fp.isEmpty then Option.none
      else
        match parseExp r3 with
        | Option.some e =>
            Option.some (ratOfParts (digitsToNat ip * 10 ^ fp.length + digitsToNat fp) fp.length e)
        | Option.none => Option.none
  | _ =>
      if ip.isEmpty then Option.none
      else
        match parseExp r1 with
        | Option.some e => Option.some (ratOfParts (digitsToNat ip) 0 e)
        | Option.none => Option.none

/-- Python `float(s)`: strip whitespace, lower-case, accept an optional
sign followed by `inf`, `infinity`, `nan` or a decimal literal; anything
else raises `ValueError`. -/
def pyFloatOfString (s : String) : Except PyErr PyFloat :=
  let cs := (stripChars s.data).map lowerChar
  let neg := (parseSign cs).1
  let r := (parseSign cs).2
  if r = ['i', 'n', 'f'] ∨ r = ['i', 'n', 'f', 'i', 'n', 'i', 't', 'y'] then
    .ok (.inf neg)
  else if r = ['n', 'a', 'n'] then .ok .nan
  else
    match parseNumber r with
    | Option.some q => .ok (.finite (if neg then -q else q))
    | Option.none =>
        .error (.valueError ("could not convert string to float: " ++ s))

/-- Python `int(f)` on a float: truncate toward zero; raises on `nan`
(`ValueError`) and on infinities (`OverflowError`). -/
def pyIntOfFloat : PyFloat → Except PyErr Int
  | .finite q => .ok (q.num.tdiv q.den)
  | .nan => .error (.valueError "cannot convert float NaN to integer")
  | .inf _ => .error (.overflowError "cannot convert float infinity to integer")

/-! ### `pandas.isna` and the record normalizer
(`app.py`, `insert_jobs_to_supabase`, lines 86-120) -/

/-- Elementwise `pd.isna` on one object-array element. -/
def isnaScalar : PyVal → Bool
  | .none => true
  | .nan => true
  | _ => false

/-- Truth value of `if pd.isna(value):`.  On a scalar this is the missing
check; on a list `pd.isna` returns an elementwise boolean array, whose use
in `if` raises `ValueError` unless the array has exactly one element. -/
def pdIsnaTruth : PyVal → Except PyErr Bool
  | .none => .ok true
  | .nan => .ok true
  | .int _ => .ok false
  | .str _ => .ok false
  | .float _ => .ok false
  | .inf _ => .ok false
  | .list [x] => .ok (isnaScalar x)
  | .list _ =>
      .error (.valueError
        "The truth value of an array with more than one element is ambiguous. Use a.any() or a.all()")

/-- The integer-like columns of the cleaning loop. -/
def countFields : List String :=
  ["company_reviews_count", "vacancy_count", "min_amount", "max_amount"]

/-- The array-like columns of the cleaning loop. -/
def arrayFields : List String := ["skills", "emails"]

/-- `[skill.strip() for skill in value.split(',') if skill.strip()]`. -/
def splitSkills (s : String) : List PyVal :=
  (((pySplitComma s).map pyStrip).filter (fun t => t ≠ "")).map PyVal.str

/-- `except (ValueError, TypeError): cleaned_job[key] = None` around a
field-level coercion. -/
def catchVT (x : Except PyErr PyVal) : Except PyErr PyVal :=
  match x with
  | .error (.valueError _) => .ok .none
  | .error (.typeError _) => .ok .none
  | r => r

/-- `int(float(str(value))) if str(value) != 'nan' else None`, with
`ValueError`/`TypeError` degrading to `None` (lines 96-99). -/
def countClean (value : PyVal) : Except PyErr PyVal :=
  catchVT
    (if pyStr value == "nan" then .ok .none
     else
       (pyFloatOfString (pyStr value)).bind fun f =>
         (pyIntOfFloat f).map PyVal.int)

/-- `float(str(value)) if str(value) != 'nan' else None`, with
`ValueError`/`TypeError` degrading to `None` (lines 110-114). -/
def ratingClean (value : PyVal) : Except PyErr PyVal :=
  catchVT
    (if pyStr value == "nan" then .ok .none
     else
       (pyFloatOfString (pyStr value)).map fun f =>
         match f with
         | .finite q => .float q
         | .nan => .nan
         | .inf neg => .inf neg)

/-- The per-field branch of the cleaning loop (lines 90-116). -/
def cleanField (key : String) (value : PyVal) : Except PyErr PyVal :=
  match pdIsnaTruth value with
  | .error e => .error e
  | .ok true => .ok PyVal.none
  | .ok false =>
      if key ∈ countFields ∧ value.isNoneV = false then
        countClean value
      else if key ∈ arrayFields ∧ value.isNoneV = false then
        .ok
          (match value with
           | .str s => .list (splitSkills s)
           | .list xs => .list xs
           | _ => .none)
      else if key = "company_rating" ∧ value.isNoneV = false then
        ratingClean value
      else
        .ok (if value.isNoneV then PyVal.none else .str (pyStr value))

/-- A raw or cleaned record: the key/value pairs of one
`DataFrame.to_dict('records')` row, in column order. -/
abbrev Record := List (String × PyVal)

/-- The `for key, value in job.items()` loop (lines 90-116): coerce every
field in order; a raising coercion propagates its exception. -/
def cleanFields : Record → Except PyErr Record
  | [] => .ok []
  | (key, value) :: rest =>
      match cleanField key value with
      | .error e => .error e
      | .ok v =>
          match cleanFields rest with
          | .error e => .error e
          | .ok vs => .ok ((key, v) :: vs)

/-- Clean one record and stamp `scraped_at` (lines 89-120): each field is
coerced by `cleanField`, then `cleaned_job['scraped_at'] =
datetime.now().isoformat()` appends the provenance timestamp. -/
def cleanJob (now : String) (job : Record) : Except PyErr Record :=
  match cleanFields job with
  | .error e => .error e
  | .ok fields => .ok (fields ++ [("scraped_at", PyVal.str now)])

/-- The cleaning loop over all records (lines 87-120); a record whose
cleaning raises aborts the loop with that exception. -/
def cleanAll (now : String) : List Record → Except PyErr (List Record)
  | [] => .ok []
  | job :: rest =>
      match cleanJob now job with
      | .error e => .error e
      | .ok c =>
          match cleanAll now rest with
          | .error e => .error e
          | .ok cs => .ok (c :: cs)

/-! ### The batch writer (`insert_jobs_to_supabase`, lines 76-141) -/

/-- Observable effects of a run: an upsert call (with its batch, its
conflict key and whether the store accepted it) and a `time.sleep`. -/
inductive Event where
  | fetch (location : String)
  | upsert (batch : List Record) (onConflict : String) (ok : Bool)
  | sleep (seconds : Nat)

/-- `batch_size = 10` (line 123). -/
def batch_size : Nat := 10

/-- `cleaned_jobs[i:i + batch_size]` for `i in range(0, len, batch_size)`,
as the list of successive chunks; the fuel argument (initially the list
length) makes the recursion structural. -/
def chunksFuel (size : Nat) (fuel : Nat) (l : List Record) : List (List Record) :=
  match l, fuel with
  | [], _ => []
  | _ :: _, 0 => []
  | x :: xs, fuel + 1 => (x :: xs).take size :: chunksFuel size fuel ((x :: xs).drop size)

/-- The batches of the writer loop (line 124-125). -/
def chunks (size : Nat) (l : List Record) : List (List Record) :=
  chunksFuel size l.length l

/-- One iteration of the batch loop (lines 127-138): an upsert keyed on
`id`; on success `time.sleep(2)` follows, on failure the `except` clause
logs and `continue`s, skipping the sleep. -/
def chunkEvents (upsertOk : List Record → Bool) (batch : List Record) : List Event :=
  if upsertOk batch then [.upsert batch "id" true, .sleep 2]
  else [.upsert batch "id" false]

/-- `insert_jobs_to_supabase` (lines 76-141): empty input returns at once;
otherwise all records are cleaned, and on any cleaning exception the outer
`except` logs and returns with no upsert issued; otherwise every chunk
gets one upsert attempt.  The function itself never raises. -/
def insert_jobs_to_supabase (upsertOk : List Record → Bool) (now : String)
    (jobs_df : List Record) : List Event :=
  if jobs_df.isEmpty then []
  else
    match cleanAll now jobs_df with
    | .error _ => []
    | .ok cleaned_jobs => ((chunks batch_size cleaned_jobs).map (chunkEvents upsertOk)).flatten

/-! ### The partition fetcher (`scrape_jobs_for_location`, lines 51-74) -/

/-- `scrape_jobs_for_location` (lines 51-74).  `provider` stands one call
to `jobspy.scrape_jobs` for this location: it may raise, return `None`, or
return a (possibly empty) frame of records.  Any exception is caught and
becomes an empty frame; `None` or an empty frame also become an empty
frame; a non-empty frame is returned as is. -/
def scrape_jobs_for_location (provider : String → Except PyErr (Option (List Record)))
    (location : String) : Except PyErr (Option (List Record)) :=
  match provider location with
  | .error _ => .ok (Option.some [])
  | .ok Option.none => .ok (Option.some [])
  | .ok (Option.some jobs) =>
      if jobs.isEmpty then .ok (Option.some []) else .ok (Option.some jobs)

/-! ### The orchestrator (`JobScraper.__init__` and `run_scrape`) -/

/-- The configuration state built by `JobScraper.__init__` (lines 36-49). -/
structure JobScraper where
  locations : List String
  sites : List String
  search_term : String
  results_per_location : Nat

/-- `JobScraper.__init__` (lines 19-49): missing or empty environment
variables raise `ValueError`; a failing connectivity probe is re-raised;
otherwise the scraper is configured with the fixed partitions. -/
def JobScraper.init (supabase_url supabase_key : Option String)
    (probe : Except PyErr Unit) : Except PyErr JobScraper :=
  if supabase_url.getD "" = "" ∨ supabase_key.getD "" = "" then
    .error (.valueError "SUPABASE_URL and SUPABASE_ANON_KEY environment variables must be set")
  else
    match probe with
    | .error e => .error e
    | .ok _ =>
        .ok
          { locations :=
              ["Bengaluru, IN", "Hyderabad, IN", "New Delhi, IN", "Gurgaon, IN",
               "Pune, IN", "Mumbai, IN", "Chennai, IN"]
            sites := ["naukri", "linkedin"]
            search_term := "product manager"
            results_per_location := 10 }

/-- One iteration of the partition loop of `run_scrape` (lines 150-162),
returning this partition's contribution to `total_jobs` and its events.
The `try/except` catches any exception of the body and `continue`s; the
only conceivable raisers are a fetcher that propagated an exception or
returned `None` (neither occurs), and in that case the inter-partition
sleep is skipped. -/
def runPartition (provider : String → Except PyErr (Option (List Record)))
    (upsertOk : List Record → Bool) (now : String) (location : String) :
    Nat × List Event :=
  match scrape_jobs_for_location provider location with
  | .ok (Option.some jobs_df) =>
      if jobs_df.isEmpty then (0, [.fetch location, .sleep 10])
      else
        (jobs_df.length,
         .fetch location :: (insert_jobs_to_supabase upsertOk now jobs_df ++ [.sleep 10]))
  | _ => (0, [.fetch location])

/-- `run_scrape` (lines 143-165): process every configured partition in
order, sum the per-partition record counts into `total_jobs`, and return
`True`.  The partitions are independent, so the sequential loop is
embedded as the in-order concatenation of per-partition results. -/
def run_scrape (provider : String → Except PyErr (Option (List Record)))
    (upsertOk : List Record → Bool) (now : String) (s : JobScraper) :
    Bool × Nat × List Event :=
  let results := s.locations.map (runPartition provider upsertOk now)
  (true, (results.map Prod.fst).sum, (results.map Prod.snd).flatten)

/-! ### Observation helpers and spec-side definitions -/

/-- The inter-batch pause event (`time.sleep(2)`). -/
def isSleep2 : Event → Bool
  | .sleep 2 => true
  | _ => false

/-- The inter-partition pause event (`time.sleep(10)`). -/
def isSleep10 : Event → Bool
  | .sleep 10 => true
  | _ => false

/-- A successful upsert call. -/
def isUpsertSuccess : Event → Bool
  | .upsert _ _ true => true
  | _ => false

/-- Any upsert call, successful or not. -/
def isUpsert : Event → Bool
  | .upsert _ _ _ => true
  | _ => false

/-- Select fetch attempts from a trace, keeping their partition. -/
def fetchSel : Event → Option String
  | .fetch location => Option.some location
  | _ => Option.none

/-- The batch of an upsert event. -/
def upsertBatch : Event → Option (List Record)
  | .upsert batch _ _ => Option.some batch
  | _ => Option.none

/-- Modelled from the amended claim C2: the raw value is treated as its
decimal string, parsed as a float and truncated to an integer; a parse
failure or a `nan` truncation (the `ValueError`/`TypeError` cases) yields
null, while an infinite parse raises an uncaught `OverflowError`. -/
def countCoercionAmended (v : PyVal) : Except PyErr PyVal :=
  match pyFloatOfString (pyStr v) with
  | .error _ => .ok PyVal.none
  | .ok PyFloat.nan => .ok PyVal.none
  | .ok (PyFloat.inf _) =>
      .error (.overflowError "cannot convert float infinity to integer")
  | .ok (PyFloat.finite q) => .ok (PyVal.int (q.num.tdiv q.den))

/-- A one-partition scraper configuration for concrete runs. -/
def demoScraper1 : JobScraper :=
  { locations := ["LocA"], sites := ["naukri", "linkedin"],
    search_term := "product manager", results_per_location := 10 }

/-- A two-partition scraper configuration for concrete runs. -/
def demoScraper2 : JobScraper :=
  { locations := ["LocA", "LocB"], sites := ["naukri", "linkedin"],
    search_term := "product manager", results_per_location := 10 }

/-- Twenty-three identical one-field raw records, for a concrete batching
run. -/
def w7jobs : List Record := List.replicate 23 [("id", PyVal.str "w")]

/-- The cleaned form of `w7jobs` under the clock value `"W7"`. -/
def w7cleaned : List Record :=
  List.replicate 23 [("id", PyVal.str "w"), ("scraped_at", PyVal.str "W7")]

/-! ## Helper lemmas -/

/-- `float(...)` can only raise `ValueError`. -/
lemma pyFloatOfString_error_cases (s : String) (e : PyErr)
    (h : pyFloatOfString s = .error e) : ∃ m, e = PyErr.valueError m := by
  simp only [pyFloatOfString] at h
  split at h
  · simp at h
  · split at h
    · simp at h
    · split at h
      · simp at h
      · simp only [Except.error.injEq] at h
        exact ⟨_, h.symm⟩

/-- Cleaning preserves the number of records. -/
lemma cleanAll_length (now : String) (jobs cleaned : List Record)
    (h : cleanAll now jobs = .ok cleaned) : cleaned.length = jobs.length := by
  induction jobs generalizing cleaned with
  | nil =>
      simp only [cleanAll, Except.ok.injEq] at h
      rw [← h]
  | cons j rest ih =>
      simp only [cleanAll] at h
      split at h
      · simp at h
      · split at h
        · simp at h
        · simp only [Except.ok.injEq] at h
          rw [← h]
          simp only [List.length_cons]
          rw [ih _ (by assumption)]

lemma chunksFuel_nil (size fuel : Nat) : chunksFuel size fuel [] = [] := by
  cases fuel <;> rfl

lemma chunksFuel_cons (size f : Nat) (x : Record) (xs : List Record) :
    chunksFuel size (f + 1) (x :: xs) =
      (x :: xs).take size :: chunksFuel size f ((x :: xs).drop size) := rfl

/-- With enough fuel, the fuel does not matter. -/
lemma chunksFuel_ge (size : Nat) (hs : 0 < size) :
    ∀ (f g : Nat) (l : List Record), l.length ≤ f → l.length ≤ g →
      chunksFuel size f l = chunksFuel size g l := by
  intro f
  induction f with
  | zero =>
      intro g l hf _
      cases l with
      | nil => rw [chunksFuel_nil, chunksFuel_nil]
      | cons x xs => simp at hf
  | succ f ih =>
      intro g l hf hg
      cases l with
      | nil => rw [chunksFuel_nil, chunksFuel_nil]
      | cons x xs =>
          cases g with
          | zero => simp at hg
          | succ g =>
              rw [chunksFuel_cons, chunksFuel_cons]
              congr 1
              apply ih
              · simp only [List.length_drop, List.length_cons]
                simp only [List.length_cons] at hf
                omega
              · simp only [List.length_drop, List.length_cons]
                simp only [List.length_cons] at hg
                omega

lemma chunks_nil (size : Nat) : chunks size [] = [] := rfl

/-- The first batch and the remaining batches. -/
lemma chunks_cons (size : Nat) (hs : 0 < size) (l : List Record) (h : l ≠ []) :
    chunks size l = l.take size :: chunks size (l.drop size) := by
  cases l with
  | nil => exact absurd rfl h
  | cons x xs =>
      show chunksFuel size (xs.length + 1) (x :: xs) = _
      rw [chunksFuel_cons]
      congr 1
      apply chunksFuel_ge size hs
      · simp only [List.length_drop, List.length_cons]
        omega
      · exact Nat.le_refl _

lemma chunkEvents_sleep2_eq_success (oracle : List Record → Bool) (b : List Record) :
    (chunkEvents oracle b).countP isSleep2 = (chunkEvents oracle b).countP isUpsertSuccess := by
  unfold chunkEvents
  split <;> rfl

lemma chunkEvents_no_sleep10 (oracle : List Record → Bool) (b : List Record) :
    (chunkEvents oracle b).countP isSleep10 = 0 := by
  unfold chunkEvents
  split <;> rfl

lemma chunkEvents_no_fetch (oracle : List Record → Bool) (b : List Record) :
    (chunkEvents oracle b).filterMap fetchSel = [] := by
  unfold chunkEvents
  split <;> rfl

/-- In the writer trace, inter-batch pauses and successful upserts pair up. -/
lemma insert_sleep2_eq_success (oracle : List Record → Bool) (now : String)
    (jobs : List Record) :
    (insert_jobs_to_supabase oracle now jobs).countP isSleep2 =
      (insert_jobs_to_supabase oracle now jobs).countP isUpsertSuccess := by
  unfold insert_jobs_to_supabase
  split
  · rfl
  · split
    · rfl
    · rw [List.countP_flatten, List.countP_flatten, List.map_map, List.map_map]
      congr 1
      exact List.map_congr_left fun b _ => chunkEvents_sleep2_eq_success oracle b

/-- The writer never emits the inter-partition pause. -/
lemma insert_no_sleep10 (oracle : List Record → Bool) (now : String)
    (jobs : List Record) :
    (insert_jobs_to_supabase oracle now jobs).countP isSleep10 = 0 := by
  unfold insert_jobs_to_supabase
  split
  · rfl
  · split
    · rfl
    · rw [List.countP_flatten, List.map_map]
      apply List.sum_eq_zero
      intro x hx
      rw [List.mem_map] at hx
      obtain ⟨b, _, rfl⟩ := hx
      exact chunkEvents_no_sleep10 oracle b

/-- The writer never emits a fetch event. -/
lemma insert_no_fetch (oracle : List Record → Bool) (now : String)
    (jobs : List Record) :
    (insert_jobs_to_supabase oracle now jobs).filterMap fetchSel = [] := by
  unfold insert_jobs_to_supabase
  split
  · rfl
  · split
    · rfl
    · rename_i cleaned heq
      rw [List.filterMap_flatten, List.map_map]
      show (List.map (fun b => (chunkEvents oracle b).filterMap fetchSel)
        (chunks batch_size cleaned)).flatten = []
      rw [List.map_congr_left (fun b _ => chunkEvents_no_fetch oracle b)]
      simp

/-- The fetcher always returns an actual (possibly empty) list of records. -/
lemma scrape_ok_some (provider : String → Except PyErr (Option (List Record)))
    (location : String) :
    ∃ xs, scrape_jobs_for_location provider location = .ok (Option.some xs) := by
  unfold scrape_jobs_for_location
  split
  · exact ⟨[], rfl⟩
  · exact ⟨[], rfl⟩
  · split
    · exact ⟨[], rfl⟩
    · exact ⟨_, rfl⟩

/-- Every partition contributes exactly its own fetch attempt. -/
lemma runPartition_fetchSel (provider : String → Except PyErr (Option (List Record)))
    (oracle : List Record → Bool) (now location : String) :
    ((runPartition provider oracle now location).2).filterMap fetchSel = [location] := by
  unfold runPartition
  split
  · split
    · rfl
    · simp only [List.filterMap_cons, fetchSel, List.filterMap_append, insert_no_fetch,
        List.filterMap_nil, List.append_nil]
  · rfl

/-- Every partition contributes exactly one inter-partition pause. -/
lemma runPartition_sleep10 (provider : String → Except PyErr (Option (List Record)))
    (oracle : List Record → Bool) (now location : String) :
    ((runPartition provider oracle now location).2).countP isSleep10 = 1 := by
  obtain ⟨xs, hx⟩ := scrape_ok_some provider location
  unfold runPartition
  rw [hx]
  dsimp only
  split
  · rfl
  · simp only [List.countP_cons, List.countP_append, insert_no_sleep10]
    rfl

/-- The partition record count does not depend on the upsert oracle or the
clock. -/
lemma runPartition_fst_oracle (provider : String → Except PyErr (Option (List Record)))
    (ok1 ok2 : List Record → Bool) (now1 now2 location : String) :
    (runPartition provider ok1 now1 location).1 = (runPartition provider ok2 now2 location).1 := by
  unfold runPartition
  cases h : scrape_jobs_for_location provider location with
  | error e => rfl
  | ok o =>
      cases o with
      | none => rfl
      | some jobs => by_cases hj : jobs.isEmpty = true <;> simp [hj]

lemma flatten_filterMap_singleton (g : String → List Event)
    (h : ∀ loc, (g loc).filterMap fetchSel = [loc]) :
    ∀ ls : List String, ((ls.map g).flatten).filterMap fetchSel = ls := by
  intro ls
  induction ls with
  | nil => rfl
  | cons a as ih =>
      simp only [List.map_cons, List.flatten_cons, List.filterMap_append, h a, ih]
      rfl

lemma flatten_countP_one (p : Event → Bool) (g : String → List Event)
    (h : ∀ loc, (g loc).countP p = 1) :
    ∀ ls : List String, ((ls.map g).flatten).countP p = ls.length := by
  intro ls
  induction ls with
  | nil => rfl
  | cons a as ih =>
      simp only [List.map_cons, List.flatten_cons, List.countP_append, h a, ih,
        List.length_cons]
      omega

/-! ## Claims -/

/-- C1: the record normalizer is claimed to be total, never throwing and
degrading malformed fields to null at field level.  The code does clean an
ordinary record, giving it its non-null `id` and a non-null `scraped_at`;
but a record whose `skills` value is a two-element list makes the
`pd.isna(value)` truth test raise `ValueError`, aborting the whole record
(and, via the writer, the whole batch) instead of degrading the field, so
normalization is not total. -/
theorem c1_normalizer_not_total :
    cleanJob "2026-02-03T00:00:00" [("id", PyVal.str "job-1")] =
        .ok [("id", PyVal.str "job-1"), ("scraped_at", PyVal.str "2026-02-03T00:00:00")] ∧
    cleanJob "2026-02-03T00:00:00"
        [("id", PyVal.str "job-1"),
         ("skills", PyVal.list [PyVal.str "python", PyVal.str "sql"])] =
      .error (.valueError
        "The truth value of an array with more than one element is ambiguous. Use a.any() or a.all()") :=
  ⟨rfl, rfl⟩

/-- C2 (amended): the count-field coercion parses `str(value)` as a float
and truncates; a `ValueError` or `TypeError` (unparsable input, or `nan`)
yields null, and in particular `"42.0"` gives integer `42` and
`"not-a-number"` gives null; but an infinite parse raises an uncaught
`OverflowError` instead of yielding null. -/
theorem c2_count_coercion_amended :
    (∀ v : PyVal, countClean v = countCoercionAmended v) ∧
    countClean (PyVal.str "42.0") = .ok (PyVal.int 42) ∧
    countClean (PyVal.str "not-a-number") = .ok PyVal.none := by
  refine ⟨fun v => ?_, rfl, rfl⟩
  unfold countClean countCoercionAmended
  by_cases h : (pyStr v == "nan") = true
  · have hs : pyStr v = "nan" := eq_of_beq h
    rw [if_pos h, hs]
    rfl
  · rw [if_neg h]
    cases hp : pyFloatOfString (pyStr v) with
    | error e =>
        obtain ⟨m, rfl⟩ := pyFloatOfString_error_cases _ _ hp
        rfl
    | ok f => cases f <;> rfl

/-- C2 witness: the amended coercion equation at a concrete input. -/
theorem c2_count_coercion_amended_witness :
    countClean (PyVal.str "12.5") = countCoercionAmended (PyVal.str "12.5") ∧
    countClean (PyVal.str "12.5") = .ok (PyVal.int 12) :=
  ⟨c2_count_coercion_amended.1 (PyVal.str "12.5"), rfl⟩

/-- C2 counterexample: the claim says any exception during the two-step
parse yields null, never an error; but a count field holding `"inf"`
raises `OverflowError` out of the normalizer (it is not in the caught
`(ValueError, TypeError)` tuple), aborting the record. -/
theorem c2_inf_counterexample :
    cleanJob "2026-02-03T00:01:00" [("company_reviews_count", PyVal.str "inf")] =
      .error (.overflowError "cannot convert float infinity to integer") := rfl

/-- C3: the list-field coercion is claimed to split strings on commas
(trimming elements and dropping empties), map other non-null scalars to
null, map missing values to null, and pass sequence values through
unchanged.  The first three behaviours hold, but a sequence value of
length other than one never reaches the pass-through branch: the
`pd.isna` truth test raises `ValueError` first, aborting the record. -/
theorem c3_list_coercion_not_passthrough :
    cleanField "skills" (PyVal.str "python, sql ,  ml") =
        .ok (PyVal.list [PyVal.str "python", PyVal.str "sql", PyVal.str "ml"]) ∧
    cleanField "skills" PyVal.none = .ok PyVal.none ∧
    cleanField "emails" (PyVal.int 3) = .ok PyVal.none ∧
    cleanJob "2026-02-03T00:02:00"
        [("skills", PyVal.list [PyVal.str "python", PyVal.str "sql", PyVal.str "ml"])] =
      .error (.valueError
        "The truth value of an array with more than one element is ambiguous. Use a.any() or a.all()") :=
  ⟨rfl, rfl, rfl, rfl⟩

/-- C4 counterexample: the claim says records of failed batches do not
contribute to the run total.  In a run whose single partition fetches two
records and whose only batch upsert fails, the total is still 2 (the code
adds `len(jobs_df)` whether or not the writer succeeded), not 0. -/
theorem c4_failed_batch_counted_counterexample :
    run_scrape (fun _ => .ok (Option.some [[("id", PyVal.str "a")], [("id", PyVal.str "b")]]))
        (fun _ => false) "2026-02-03T00:03:00" demoScraper1 =
      (true, 2,
        [.fetch "LocA",
         .upsert [[("id", PyVal.str "a"), ("scraped_at", PyVal.str "2026-02-03T00:03:00")],
                  [("id", PyVal.str "b"), ("scraped_at", PyVal.str "2026-02-03T00:03:00")]]
           "id" false,
         .sleep 10]) := rfl

/-- C4 (amended): per-partition and per-batch errors are absorbed at their
origin — the run always returns success — but the records of failed
batches are still counted: the run total is independent of the upsert
outcomes (and of the clock). -/
theorem c4_total_counts_failed_batches
    (provider : String → Except PyErr (Option (List Record)))
    (ok1 ok2 : List Record → Bool) (now1 now2 : String) (s : JobScraper) :
    (run_scrape provider ok1 now1 s).2.1 = (run_scrape provider ok2 now2 s).2.1 ∧
    (run_scrape provider ok1 now1 s).1 = true := by
  constructor
  · unfold run_scrape
    dsimp only
    rw [List.map_map, List.map_map]
    congr 1
    exact List.map_congr_left fun loc _ =>
      runPartition_fst_oracle provider ok1 ok2 now1 now2 loc
  · rfl

/-- C4 witness: the amended statement at a concrete run. -/
theorem c4_total_counts_failed_batches_witness :
    (run_scrape (fun _ => .ok (Option.some [[("id", PyVal.str "k")]])) (fun _ => true)
        "W4a" demoScraper1).2.1 =
      (run_scrape (fun _ => .ok (Option.some [[("id", PyVal.str "k")]])) (fun _ => false)
        "W4b" demoScraper1).2.1 ∧
    (run_scrape (fun _ => .ok (Option.some [[("id", PyVal.str "k")]])) (fun _ => true)
        "W4a" demoScraper1).1 = true :=
  c4_total_counts_failed_batches _ _ _ _ _ _

/-- C5 counterexample: the claim says the fixed pause after a write-chunk
occurs regardless of whether the chunk upsert succeeded or failed.  For a
one-record input whose only upsert fails, the writer trace contains no
inter-batch pause at all: `time.sleep(2)` sits inside the `try` after the
upsert, so the failing branch skips it. -/
theorem c5_chunk_pause_skipped_counterexample :
    insert_jobs_to_supabase (fun _ => false) "2026-02-03T00:04:00" [[("id", PyVal.str "c")]] =
      [.upsert [[("id", PyVal.str "c"), ("scraped_at", PyVal.str "2026-02-03T00:04:00")]]
        "id" false] ∧
    (insert_jobs_to_supabase (fun _ => false) "2026-02-03T00:04:00"
        [[("id", PyVal.str "c")]]).countP isSleep2 = 0 :=
  ⟨rfl, rfl⟩

/-- C5 (amended): the pause after a write-chunk occurs exactly once per
successful chunk upsert (failed chunks skip it), while the pause after a
partition is unconditional: every configured partition ends with exactly
one inter-partition pause, whatever the fetch and write outcomes. -/
theorem c5_pauses (oracle : List Record → Bool) (now : String) (jobs : List Record)
    (provider : String → Except PyErr (Option (List Record))) (s : JobScraper) :
    (insert_jobs_to_supabase oracle now jobs).countP isSleep2 =
      (insert_jobs_to_supabase oracle now jobs).countP isUpsertSuccess ∧
    ((run_scrape provider oracle now s).2.2).countP isSleep10 = s.locations.length := by
  refine ⟨insert_sleep2_eq_success oracle now jobs, ?_⟩
  unfold run_scrape
  dsimp only
  rw [List.map_map]
  exact flatten_countP_one isSleep10 _
    (fun loc => runPartition_sleep10 provider oracle now loc) s.locations

/-- C5 witness: the amended statement at a concrete writer input and run. -/
theorem c5_pauses_witness :
    (insert_jobs_to_supabase (fun _ => true) "W5" [[("id", PyVal.str "e")]]).countP isSleep2 =
      (insert_jobs_to_supabase (fun _ => true) "W5" [[("id", PyVal.str "e")]]).countP
        isUpsertSuccess ∧
    ((run_scrape (fun _ => .ok Option.none) (fun _ => true) "W5"
        demoScraper2).2.2).countP isSleep10 = demoScraper2.locations.length :=
  c5_pauses _ _ _ _ _

/-- C6: the partition fetcher never propagates an exception: a provider
that throws, returns no frame, or returns an empty frame all yield the
empty record sequence, and whatever the provider does the caller receives
an actual sequence. -/
theorem c6_fetcher_absorbs_failures
    (provider : String → Except PyErr (Option (List Record))) (location : String) :
    (∀ e, provider location = .error e →
      scrape_jobs_for_location provider location = .ok (Option.some [])) ∧
    (provider location = .ok Option.none →
      scrape_jobs_for_location provider location = .ok (Option.some [])) ∧
    (provider location = .ok (Option.some []) →
      scrape_jobs_for_location provider location = .ok (Option.some [])) ∧
    (∃ jobs, scrape_jobs_for_location provider location = .ok (Option.some jobs)) := by
  refine ⟨fun e he => ?_, fun hn => ?_, fun he => ?_, scrape_ok_some provider location⟩
  · unfold scrape_jobs_for_location
    rw [he]
  · unfold scrape_jobs_for_location
    rw [hn]
  · unfold scrape_jobs_for_location
    rw [he]
    rfl

/-- C6 witness: a throwing provider is converted to an empty result. -/
theorem c6_fetcher_absorbs_failures_witness :
    scrape_jobs_for_location (fun _ => .error (.providerError "network down")) "Mumbai, IN" =
      .ok (Option.some []) :=
  (c6_fetcher_absorbs_failures (fun _ => .error (.providerError "network down"))
    "Mumbai, IN").1 (.providerError "network down") rfl

/-- C7: the writer partitions its input into chunks of `batch_size = 10`
and issues one upsert keyed on `id` per chunk; for 23 records (whose
cleaning succeeds and whose upserts succeed) the trace is exactly three
upserts of sizes 10, 10 and 3, each followed by the inter-batch pause; an
empty input produces no events at all. -/
theorem c7_batching (upsertOk : List Record → Bool) (now : String)
    (jobs cleaned : List Record)
    (hclean : cleanAll now jobs = .ok cleaned)
    (h23 : jobs.length = 23)
    (hok : ∀ b, upsertOk b = true) :
    insert_jobs_to_supabase upsertOk now jobs =
      [.upsert (cleaned.take 10) "id" true, .sleep 2,
       .upsert ((cleaned.drop 10).take 10) "id" true, .sleep 2,
       .upsert (cleaned.drop 20) "id" true, .sleep 2] ∧
    (cleaned.take 10).length = 10 ∧
    ((cleaned.drop 10).take 10).length = 10 ∧
    (cleaned.drop 20).length = 3 ∧
    insert_jobs_to_supabase upsertOk now [] = [] := by
  have hlen : cleaned.length = 23 := by
    rw [cleanAll_length now jobs cleaned hclean, h23]
  have hne : jobs.isEmpty = false := by
    cases jobs with
    | nil => simp at h23
    | cons a b => rfl
  have h1 : cleaned ≠ [] := by
    intro hc
    rw [hc] at hlen
    simp at hlen
  have hd10 : (cleaned.drop 10).length = 13 := by
    rw [List.length_drop, hlen]
  have h2 : cleaned.drop 10 ≠ [] := by
    intro hc
    rw [hc] at hd10
    simp at hd10
  have hdd : (cleaned.drop 10).drop 10 = cleaned.drop 20 := by
    rw [List.drop_drop]
  have hd20 : (cleaned.drop 20).length = 3 := by
    rw [List.length_drop, hlen]
  have h3 : cleaned.drop 20 ≠ [] := by
    intro hc
    rw [hc] at hd20
    simp at hd20
  have htake : (cleaned.drop 20).take 10 = cleaned.drop 20 :=
    List.take_of_length_le (by rw [hd20]; omega)
  have hdrop : (cleaned.drop 20).drop 10 = [] :=
    List.drop_eq_nil_of_le (by rw [hd20]; omega)
  have hbody : insert_jobs_to_supabase upsertOk now jobs =
      ((chunks batch_size cleaned).map (chunkEvents upsertOk)).flatten := by
    unfold insert_jobs_to_supabase
    rw [hne, hclean]
    rfl
  refine ⟨?_, ?_, ?_, hd20, rfl⟩
  · rw [hbody]
    unfold batch_size
    rw [chunks_cons 10 (by decide) cleaned h1,
      chunks_cons 10 (by decide) _ h2, hdd,
      chunks_cons 10 (by decide) _ h3, htake, hdrop, chunks_nil]
    simp [chunkEvents, hok]
  · rw [List.length_take, hlen]
    omega
  · rw [List.length_take, List.length_drop, hlen]
    omega

/-- C7 witness: the batching statement at a concrete 23-record input. -/
theorem c7_batching_witness :
    insert_jobs_to_supabase (fun _ => true) "W7" w7jobs =
      [.upsert (w7cleaned.take 10) "id" true, .sleep 2,
       .upsert ((w7cleaned.drop 10).take 10) "id" true, .sleep 2,
       .upsert (w7cleaned.drop 20) "id" true, .sleep 2] ∧
    (w7cleaned.take 10).length = 10 ∧
    ((w7cleaned.drop 10).take 10).length = 10 ∧
    (w7cleaned.drop 20).length = 3 ∧
    insert_jobs_to_supabase (fun _ => true) "W7" [] = [] :=
  c7_batching (fun _ => true) "W7" w7jobs w7cleaned rfl rfl (fun _ => rfl)

/-- C8: the orchestrator isolates partition failures and always completes:
whatever the provider and the store do, the run returns success and every
configured partition is attempted, in order; and the only failure that
surfaces to the caller is a construction failure — a failing connectivity
probe makes `JobScraper.__init__` raise, while a healthy setup yields the
configured scraper. -/
theorem c8_partition_isolation
    (provider : String → Except PyErr (Option (List Record)))
    (upsertOk : List Record → Bool) (now : String) (s : JobScraper) :
    (run_scrape provider upsertOk now s).1 = true ∧
    ((run_scrape provider upsertOk now s).2.2).filterMap fetchSel = s.locations ∧
    (∀ url key e, ∃ e2, JobScraper.init url key (.error e) = .error e2) ∧
    JobScraper.init (Option.some "https://example.supabase.co") (Option.some "anon-key")
        (.ok ()) =
      .ok { locations := ["Bengaluru, IN", "Hyderabad, IN", "New Delhi, IN", "Gurgaon, IN",
                          "Pune, IN", "Mumbai, IN", "Chennai, IN"],
            sites := ["naukri", "linkedin"], search_term := "product manager",
            results_per_location := 10 } := by
  refine ⟨rfl, ?_, ?_, rfl⟩
  · unfold run_scrape
    dsimp only
    rw [List.map_map]
    exact flatten_filterMap_singleton _
      (fun loc => runPartition_fetchSel provider upsertOk now loc) s.locations
  · intro url key e
    unfold JobScraper.init
    split
    · exact ⟨_, rfl⟩
    · exact ⟨e, rfl⟩

/-- C8 witness: a run whose every partition fails still returns success
and attempts both partitions in order. -/
theorem c8_partition_isolation_witness :
    (run_scrape (fun _ => .error (.providerError "down")) (fun _ => false) "W8"
        demoScraper2).1 = true ∧
    ((run_scrape (fun _ => .error (.providerError "down")) (fun _ => false) "W8"
        demoScraper2).2.2).filterMap fetchSel = demoScraper2.locations :=
  ⟨(c8_partition_isolation _ _ _ _).1, (c8_partition_isolation _ _ _ _).2.1⟩

/-- C9 (implicit): the partition fetch never returns a null or absent
result: whatever the provider does, the fetcher returns normally with an
actual (possibly empty) record sequence. -/
theorem c9_fetch_never_none (provider : String → Except PyErr (Option (List Record)))
    (location : String) :
    ∃ jobs, scrape_jobs_for_location provider location = .ok (Option.some jobs) :=
  scrape_ok_some provider location

/-- C9 witness: a provider returning `None` still yields a sequence. -/
theorem c9_fetch_never_none_witness :
    ∃ jobs, scrape_jobs_for_location (fun _ => .ok Option.none) "Gurgaon, IN" =
      .ok (Option.some jobs) :=
  c9_fetch_never_none (fun _ => .ok Option.none) "Gurgaon, IN"

/-- C10 (implicit): the writer cleans all records before issuing any
upsert; if cleaning any record raises, the writer returns normally with an
empty trace — no upsert is issued for the whole input and no exception
propagates. -/
theorem c10_cleaning_error_blocks_all_upserts (upsertOk : List Record → Bool)
    (now : String) (jobs : List Record) (e : PyErr)
    (herr : cleanAll now jobs = .error e) :
    insert_jobs_to_supabase upsertOk now jobs = [] := by
  cases jobs with
  | nil => simp [cleanAll] at herr
  | cons j rest =>
      unfold insert_jobs_to_supabase
      rw [herr]
      rfl

/-- C10 witness: a two-record input whose second record fails to clean
produces no upsert at all. -/
theorem c10_cleaning_error_blocks_all_upserts_witness :
    insert_jobs_to_supabase (fun _ => true) "W10"
      [[("id", PyVal.str "a")],
       [("skills", PyVal.list [PyVal.str "x", PyVal.str "y", PyVal.str "z"])]] = [] :=
  c10_cleaning_error_blocks_all_upserts _ _ _
    (.valueError
      "The truth value of an array with more than one element is ambiguous. Use a.any() or a.all()")
    rfl

end App
